import Mathlib

/-!
Shallow embedding of the receivable/debt subsystem of the Kolam-Ikan backend:
the `debts` routes (list, get single, record payment, list payments) and the
`transactions` routes (create, update, delete) together with the database
tables they touch (`debts`, `debt_payments`, `transactions`).

Monetary amounts are SQLite INTEGER columns, modelled as `Int`; `weight_kg`
is a REAL column, modelled as `Rat`; date columns are modelled as `String`
(SQLite DATE values compare lexicographically).  JavaScript truthiness tests
(`if (!x)`) on request fields are modelled explicitly: a missing field,
the empty string, and the number `0` are falsy.
-/

/-- A row of the `debts` table. -/
structure Debt where
  id : Nat
  transaction_id : Option Nat
  customer_id : Nat
  amount : Int
  paid_amount : Int
  status : String
  created_at : Nat
deriving Repr, DecidableEq

/-- A row of the `debt_payments` table. -/
structure DebtPayment where
  id : Nat
  debt_id : Nat
  payment_date : String
  amount : Int
  payment_method : Option String
  notes : Option String
deriving Repr, DecidableEq

/-- A row of the `transactions` table. -/
structure SaleTransaction where
  id : Nat
  date : String
  pond_id : Option Nat
  customer_id : Nat
  weight_kg : Rat
  price_per_kg : Rat
  total : Int
  payment_method : Option String
  payment_status : String
  notes : Option String
  created_by : Nat
deriving Repr, DecidableEq

/-- The database state the debt/transaction routes read and write, plus the
AUTOINCREMENT counters of the three tables and a clock for
`CURRENT_TIMESTAMP` / `created_at` defaults. -/
structure DB where
  debts : List Debt
  debt_payments : List DebtPayment
  transactions : List SaleTransaction
  nextDebtId : Nat
  nextPaymentId : Nat
  nextTransactionId : Nat
  now : Nat
deriving Repr, DecidableEq

/-- JavaScript truthiness of an optional string: `undefined`, `null` and the
empty string are falsy. -/
def strTruthy : Option String → Bool
  | none => false
  | some s => !s.isEmpty

/-- JavaScript truthiness of an optional integer: `undefined`, `null` and `0`
are falsy. -/
def intTruthy : Option Int → Bool
  | none => false
  | some a => a != 0

/-- JavaScript truthiness of an optional rational: `undefined`, `null` and `0`
are falsy. -/
def ratTruthy : Option Rat → Bool
  | none => false
  | some q => q != 0

/-- JavaScript truthiness of an optional natural (an id field). -/
def natTruthy : Option Nat → Bool
  | none => false
  | some n => n != 0

/-- `x || d` for an optional string `x`: the default is used when `x` is
falsy (absent or empty). -/
def jsOrStr (x : Option String) (d : String) : String :=
  match x with
  | none => d
  | some s => if s.isEmpty then d else s

/-- `x || null` for an optional id: `0` is falsy in JavaScript, so it
collapses to `null`. -/
def jsOrNullNat (x : Option Nat) : Option Nat :=
  match x with
  | none => none
  | some n => if n = 0 then none else some n

/-- `SELECT COALESCE(SUM(amount), 0) FROM debt_payments WHERE debt_id = ?`:
the sum of the amounts of all payment rows of one debt. -/
def sumPaymentsFor (ps : List DebtPayment) (debtId : Nat) : Int :=
  ((ps.filter (fun p => p.debt_id == debtId)).map (fun p => p.amount)).sum

/-- `ORDER BY payment_date DESC` on payment rows (newest first). -/
def paymentDateDesc (a b : DebtPayment) : Prop :=
  b.payment_date ≤ a.payment_date

instance : DecidableRel paymentDateDesc := fun a b =>
  inferInstanceAs (Decidable (b.payment_date ≤ a.payment_date))

instance : IsTotal DebtPayment paymentDateDesc :=
  ⟨fun a b => (le_total b.payment_date a.payment_date).imp id id⟩

instance : IsTrans DebtPayment paymentDateDesc :=
  ⟨fun _ _ _ hab hbc => le_trans hbc hab⟩

/-- `ORDER BY d.created_at DESC` on debt rows. -/
def createdAtDesc (a b : Debt) : Prop :=
  b.created_at ≤ a.created_at

instance : DecidableRel createdAtDesc := fun a b =>
  inferInstanceAs (Decidable (b.created_at ≤ a.created_at))

/-- A row of the response of `GET /api/debts` (the list endpoint): the debt
spread together with the computed `paid_amount`, `remaining_amount` and the
overriding `status`.  The spread `{...debt, paid_amount, remaining_amount,
status}` replaces the stored `paid_amount` and `status` columns. -/
structure DebtListRow where
  id : Nat
  transaction_id : Option Nat
  customer_id : Nat
  amount : Int
  created_at : Nat
  paid_amount : Int
  remaining_amount : Int
  status : String
deriving Repr, DecidableEq

/-- `router.get('/')` of the debts router: fetch debts (optionally filtered on
the stored `status` column and on `customer_id`), order by `created_at DESC`,
and for each debt recompute `paid_amount`, `remaining_amount` and `status`
from the payment sum. -/
def listDebts (db : DB) (statusFilter : Option String) (customerFilter : Option Nat) :
    List DebtListRow :=
  let filtered := db.debts.filter (fun d =>
    (if strTruthy statusFilter then d.status == statusFilter.getD "" else true) &&
    (if natTruthy customerFilter then d.customer_id == customerFilter.getD 0 else true))
  let ordered := filtered.insertionSort createdAtDesc
  ordered.map (fun d =>
    let totalPaid := sumPaymentsFor db.debt_payments d.id
    let remaining := d.amount - totalPaid
    { id := d.id
      transaction_id := d.transaction_id
      customer_id := d.customer_id
      amount := d.amount
      created_at := d.created_at
      paid_amount := totalPaid
      remaining_amount := remaining
      status := if remaining ≤ 0 then "paid" else "unpaid" })

/-- Response of `GET /api/debts/:id` (single debt): the debt spread (keeping
the STORED `status` column — it is not overridden here), plus the ordered
payment list and the computed `paid_amount` / `remaining_amount`. -/
structure DebtDetail where
  id : Nat
  transaction_id : Option Nat
  customer_id : Nat
  amount : Int
  created_at : Nat
  status : String
  payments : List DebtPayment
  paid_amount : Int
  remaining_amount : Int
deriving Repr, DecidableEq

/-- Outcome of `GET /api/debts/:id`. -/
inductive GetDebtResult
  | notFound
  | ok (resp : DebtDetail)
deriving Repr, DecidableEq

/-- `router.get('/:id')` of the debts router: 404 when no debt has the id;
otherwise return the debt row, its payments ordered `payment_date DESC`, the
payment sum as `paid_amount` and `amount - sum` as `remaining_amount`.  The
`status` field is the stored column (the spread does not override it). -/
def getDebt (db : DB) (i : Nat) : GetDebtResult :=
  match db.debts.find? (fun d => d.id == i) with
  | none => .notFound
  | some debt =>
    let payments :=
      (db.debt_payments.filter (fun p => p.debt_id == i)).insertionSort paymentDateDesc
    let totalPaid := payments.foldl (fun s p => s + p.amount) 0
    .ok
      { id := debt.id
        transaction_id := debt.transaction_id
        customer_id := debt.customer_id
        amount := debt.amount
        created_at := debt.created_at
        status := debt.status
        payments := payments
        paid_amount := totalPaid
        remaining_amount := debt.amount - totalPaid }

/-- The request body of `POST /api/debts/:id/payments`. -/
structure PaymentBody where
  payment_date : Option String
  amount : Option Int
  payment_method : Option String
  notes : Option String
deriving Repr, DecidableEq

/-- The effect of the debt `UPDATE` after a payment on one matching row:
`status = 'paid'` and `paid_amount = totalPaid` when the total reaches the
debt's amount, `paid_amount = totalPaid` only otherwise. -/
def applyPaymentUpdate (totalPaid : Int) (debtAmount : Int) (d : Debt) : Debt :=
  if totalPaid ≥ debtAmount then { d with status := "paid", paid_amount := totalPaid }
  else { d with paid_amount := totalPaid }

/-- Outcome of `POST /api/debts/:id/payments`. -/
inductive RecordPaymentResult
  | badRequest
  | notFound
  | created (payment : DebtPayment) (db : DB)
deriving Repr, DecidableEq

/-- `router.post('/:id/payments')`: reject with 400 when `payment_date` or
`amount` is falsy (`if (!payment_date || !amount)` — so the number `0` is
rejected like an absent field); 404 when the debt id does not exist;
otherwise insert the payment row, recompute the total paid over ALL payment
rows of the debt (the new row included), and update the debt: status `'paid'`
and `paid_amount` when the total reaches `amount`, `paid_amount` only
otherwise.  Returns the created payment row. -/
def recordPayment (db : DB) (debtId : Nat) (body : PaymentBody) : RecordPaymentResult :=
  if !(strTruthy body.payment_date) || !(intTruthy body.amount) then .badRequest
  else
    match db.debts.find? (fun d => d.id == debtId) with
    | none => .notFound
    | some debt =>
      let newPayment : DebtPayment :=
        { id := db.nextPaymentId
          debt_id := debtId
          payment_date := body.payment_date.getD ""
          amount := body.amount.getD 0
          payment_method := body.payment_method
          notes := body.notes }
      let payments1 := db.debt_payments ++ [newPayment]
      let totalPaid := sumPaymentsFor payments1 debtId
      let newDebts := db.debts.map (fun d =>
        if d.id == debtId then applyPaymentUpdate totalPaid debt.amount d else d)
      .created newPayment
        { db with
            debts := newDebts
            debt_payments := payments1
            nextPaymentId := db.nextPaymentId + 1 }

/-- `router.get('/:id/payments')`: all payment rows of the id, ordered
`payment_date DESC`; no existence check on the debt id. -/
def listDebtPayments (db : DB) (i : Nat) : List DebtPayment :=
  (db.debt_payments.filter (fun p => p.debt_id == i)).insertionSort paymentDateDesc

/-- `Math.round` of JavaScript on an exact rational: round half toward
positive infinity. -/
def jsRound (q : Rat) : Int := ⌊q + 1 / 2⌋

/-- The request body of `POST /api/transactions` and `PUT /api/transactions/:id`. -/
structure TransactionBody where
  date : Option String
  pond_id : Option Nat
  customer_id : Option Nat
  weight_kg : Option Rat
  price_per_kg : Option Rat
  payment_method : Option String
  payment_status : Option String
  notes : Option String
deriving Repr, DecidableEq

/-- Outcome of `POST /api/transactions`. -/
inductive CreateTxResult
  | badRequest
  | created (t : SaleTransaction) (db : DB)
deriving Repr, DecidableEq

/-- `router.post('/')` of the transactions router: reject with 400 when
`date`, `customer_id`, `weight_kg` or `price_per_kg` is falsy; compute
`total = Math.round(weight_kg * price_per_kg)`; insert the transaction row
(`payment_status || 'paid'`); and, when the raw `payment_status` strictly
equals `'unpaid'`, insert one debt row with `amount = total` and
`status = 'unpaid'` (the `paid_amount` column takes its schema default 0). -/
def createTransaction (db : DB) (userId : Nat) (body : TransactionBody) : CreateTxResult :=
  if !(strTruthy body.date) || !(natTruthy body.customer_id) ||
      !(ratTruthy body.weight_kg) || !(ratTruthy body.price_per_kg) then .badRequest
  else
    let w := body.weight_kg.getD 0
    let p := body.price_per_kg.getD 0
    let total := jsRound (w * p)
    let tx : SaleTransaction :=
      { id := db.nextTransactionId
        date := body.date.getD ""
        pond_id := jsOrNullNat body.pond_id
        customer_id := body.customer_id.getD 0
        weight_kg := w
        price_per_kg := p
        total := total
        payment_method := body.payment_method
        payment_status := jsOrStr body.payment_status "paid"
        notes := body.notes
        created_by := userId }
    let db1 : DB :=
      { db with
          transactions := db.transactions ++ [tx]
          nextTransactionId := db.nextTransactionId + 1 }
    let db2 : DB :=
      if body.payment_status == some "unpaid" then
        { db1 with
            debts := db1.debts ++
              [{ id := db1.nextDebtId
                 transaction_id := some tx.id
                 customer_id := tx.customer_id
                 amount := total
                 paid_amount := 0
                 status := "unpaid"
                 created_at := db1.now }]
            nextDebtId := db1.nextDebtId + 1 }
      else db1
    .created tx db2

/-- Outcome of `PUT /api/transactions/:id` (the handler performs no
validation and no existence check; it returns the row found afterwards). -/
structure UpdateTxResult where
  db : DB
  transaction : Option SaleTransaction
deriving Repr, DecidableEq

/-- `router.put('/:id')` of the transactions router: recompute
`total = Math.round(weight_kg * price_per_kg)`, overwrite the transaction
row, then synchronize the debt: when the new `payment_status` strictly
equals `'unpaid'`, insert a debt when none references the transaction,
otherwise `UPDATE debts SET amount = ? WHERE transaction_id = ?` (only the
`amount` column); when it does not equal `'unpaid'`,
`UPDATE debts SET status = 'paid' WHERE transaction_id = ?` (only the
`status` column). -/
def updateTransaction (db : DB) (txId : Nat) (body : TransactionBody) : UpdateTxResult :=
  let w := body.weight_kg.getD 0
  let p := body.price_per_kg.getD 0
  let total := jsRound (w * p)
  let newTxs := db.transactions.map (fun t =>
    if t.id == txId then
      { t with
          date := body.date.getD ""
          pond_id := body.pond_id
          customer_id := body.customer_id.getD 0
          weight_kg := w
          price_per_kg := p
          total := total
          payment_method := body.payment_method
          payment_status := body.payment_status.getD ""
          notes := body.notes }
    else t)
  let db1 : DB := { db with transactions := newTxs }
  let db2 : DB :=
    if body.payment_status == some "unpaid" then
      match db1.debts.find? (fun d => d.transaction_id == some txId) with
      | none =>
        { db1 with
            debts := db1.debts ++
              [{ id := db1.nextDebtId
                 transaction_id := some txId
                 customer_id := body.customer_id.getD 0
                 amount := total
                 paid_amount := 0
                 status := "unpaid"
                 created_at := db1.now }]
            nextDebtId := db1.nextDebtId + 1 }
      | some _ =>
        { db1 with
            debts := db1.debts.map (fun d =>
              if d.transaction_id == some txId then { d with amount := total } else d) }
    else
      { db1 with
          debts := db1.debts.map (fun d =>
            if d.transaction_id == some txId then { d with status := "paid" } else d) }
  { db := db2, transaction := db2.transactions.find? (fun t => t.id == txId) }

/-- The caller identity the auth middleware attaches to the request. -/
structure User where
  id : Nat
  role : String
deriving Repr, DecidableEq

/-- Outcome of `DELETE /api/transactions/:id`.  The `forbidden` case carries
the (unchanged) database so the absence of side effects is expressible. -/
inductive DeleteTxResult
  | forbidden (db : DB)
  | ok (db : DB)
deriving Repr, DecidableEq

/-- `router.delete('/:id')` of the transactions router: 403 unless the
caller's role is `'admin'` or `'owner'`; otherwise delete the transaction
row and every debt row whose `transaction_id` references it.  Payment rows
are not touched. -/
def deleteTransaction (db : DB) (user : User) (txId : Nat) : DeleteTxResult :=
  if user.role ≠ "admin" ∧ user.role ≠ "owner" then .forbidden db
  else
    .ok
      { db with
          transactions := db.transactions.filter (fun t => !(t.id == txId))
          debts := db.debts.filter (fun d => !(d.transaction_id == some txId)) }

/-! ### Example states used by witnesses -/

/-- A debt of 100 whose stored columns (`paid_amount = 0`,
`status = "unpaid"`) disagree with its payment rows. -/
def exDebt1 : Debt :=
  { id := 1, transaction_id := some 7, customer_id := 3, amount := 100
    paid_amount := 0, status := "unpaid", created_at := 5 }

/-- A debt of 50 stored as `"paid"` although it has no payment rows. -/
def exDebt2 : Debt :=
  { id := 2, transaction_id := none, customer_id := 4, amount := 50
    paid_amount := 50, status := "paid", created_at := 6 }

/-- A payment of 100 settling `exDebt1` in full. -/
def exPayment1 : DebtPayment :=
  { id := 1, debt_id := 1, payment_date := "2024-01-10", amount := 100
    payment_method := some "cash", notes := none }

/-- A state with the two example debts and the one payment. -/
def exDB1 : DB :=
  { debts := [exDebt1, exDebt2], debt_payments := [exPayment1], transactions := []
    nextDebtId := 3, nextPaymentId := 2, nextTransactionId := 8, now := 9 }

/-! ### C1 — list endpoint recomputes paid/remaining/status per row -/

/-- C1: every row returned by the debts list endpoint has
`paid_amount` equal to the sum of the amounts of the debt's payment rows,
`remaining_amount = amount - paid_amount`, and `status = 'paid'` iff
`remaining_amount ≤ 0` (else `'unpaid'`), for every stored state — in
particular regardless of the stored `status` column. -/
theorem listDebts_recomputes_row (db : DB) (sf : Option String) (cf : Option Nat)
    (row : DebtListRow) (hrow : row ∈ listDebts db sf cf) :
    row.paid_amount = sumPaymentsFor db.debt_payments row.id ∧
    row.remaining_amount = row.amount - row.paid_amount ∧
    row.status = (if row.remaining_amount ≤ 0 then "paid" else "unpaid") := by
  simp only [listDebts, List.mem_map] at hrow
  obtain ⟨d, -, rfl⟩ := hrow
  exact ⟨rfl, rfl, rfl⟩

/-- The row the list endpoint produces for `exDebt1` in `exDB1`. -/
def exRowC1 : DebtListRow :=
  { id := 1, transaction_id := some 7, customer_id := 3, amount := 100
    created_at := 5, paid_amount := 100, remaining_amount := 0, status := "paid" }

/-- Witness for C1 at the concrete state `exDB1`. -/
theorem listDebts_recomputes_row_witness :
    exRowC1 ∈ listDebts exDB1 none none ∧
    (exRowC1.paid_amount = sumPaymentsFor exDB1.debt_payments exRowC1.id ∧
     exRowC1.remaining_amount = exRowC1.amount - exRowC1.paid_amount ∧
     exRowC1.status = (if exRowC1.remaining_amount ≤ 0 then "paid" else "unpaid")) :=
  ⟨by decide, listDebts_recomputes_row exDB1 none none exRowC1 (by decide)⟩

/-! ### C2 — recording a payment inserts a row and updates the debt -/

/-- `UPDATE ... WHERE id = ?` seen through `find?`: updating every row whose
`id` matches, with an id-preserving function, turns the first match `d` into
`g d`. -/
theorem find?_id_map_update (l : List Debt) (i : Nat) (g : Debt → Debt)
    (hg : ∀ d, (g d).id = d.id) (d : Debt)
    (h : l.find? (fun x => x.id == i) = some d) :
    (l.map (fun x => if x.id == i then g x else x)).find? (fun x => x.id == i)
      = some (g d) := by
  induction l with
  | nil => simp at h
  | cons a l ih =>
    by_cases ha : a.id = i
    · have hb : (a.id == i) = true := by simp [ha]
      simp only [List.find?_cons, hb, cond_true] at h
      injection h with h
      subst h
      simp only [List.map_cons, hb, if_true, List.find?_cons, hg, cond_true]
    · have hb : (a.id == i) = false := by simp [ha]
      simp only [List.find?_cons, hb, cond_false] at h
      simp only [List.map_cons, hb, Bool.false_eq_true, if_false, List.find?_cons, cond_false]
      exact ih h

/-- Appending one payment row adds its amount to the sum when it belongs to
the debt. -/
theorem sumPaymentsFor_append_own (ps : List DebtPayment) (q : DebtPayment)
    (hq : q.debt_id = i) :
    sumPaymentsFor (ps ++ [q]) i = sumPaymentsFor ps i + q.amount := by
  simp [sumPaymentsFor, List.filter_append, hq]

/-- C2: recording a payment of amount `a ≠ 0` (with a truthy date) on an
existing debt with prior total paid `p` inserts exactly one payment row,
returns it, and updates the debt: when `p + a ≥ amount` the stored status
becomes `'paid'` and `paid_amount` becomes `p + a`; otherwise only
`paid_amount` becomes `p + a` and the status is unchanged. -/
theorem recordPayment_spec (db : DB) (debtId : Nat) (body : PaymentBody)
    (debt : Debt) (a : Int)
    (hdate : strTruthy body.payment_date = true)
    (hamt : body.amount = some a) (ha : a ≠ 0)
    (hfind : db.debts.find? (fun d => d.id == debtId) = some debt) :
    ∃ pay db', recordPayment db debtId body = .created pay db' ∧
      db'.debt_payments = db.debt_payments ++ [pay] ∧
      pay.amount = a ∧ pay.debt_id = debtId ∧
      ∃ debt', db'.debts.find? (fun d => d.id == debtId) = some debt' ∧
        debt'.paid_amount = sumPaymentsFor db.debt_payments debtId + a ∧
        debt'.status =
          (if sumPaymentsFor db.debt_payments debtId + a ≥ debt.amount
           then "paid" else debt.status) := by
  have htr : intTruthy body.amount = true := by simp [hamt, intTruthy, ha]
  set pay : DebtPayment :=
    { id := db.nextPaymentId
      debt_id := debtId
      payment_date := body.payment_date.getD ""
      amount := body.amount.getD 0
      payment_method := body.payment_method
      notes := body.notes } with hpay
  have hsum : sumPaymentsFor (db.debt_payments ++ [pay]) debtId
      = sumPaymentsFor db.debt_payments debtId + a := by
    rw [sumPaymentsFor_append_own _ _ rfl, hpay]
    simp [hamt]
  have hupd := find?_id_map_update db.debts debtId
    (applyPaymentUpdate (sumPaymentsFor (db.debt_payments ++ [pay]) debtId) debt.amount)
    (fun d => by unfold applyPaymentUpdate; split <;> rfl) debt hfind
  set db' : DB :=
    { db with
        debts := db.debts.map (fun d =>
          if d.id == debtId then
            applyPaymentUpdate (sumPaymentsFor (db.debt_payments ++ [pay]) debtId)
              debt.amount d
          else d)
        debt_payments := db.debt_payments ++ [pay]
        nextPaymentId := db.nextPaymentId + 1 } with hdb'
  refine ⟨pay, db', ?_, rfl, by simp [hpay, hamt], rfl,
    applyPaymentUpdate (sumPaymentsFor (db.debt_payments ++ [pay]) debtId) debt.amount debt,
    hupd, ?_, ?_⟩
  · simp only [recordPayment, hdate, htr, Bool.not_true, Bool.or_self, Bool.false_eq_true,
      if_false, hfind]
  · rw [hsum]
    unfold applyPaymentUpdate
    split <;> rfl
  · rw [hsum]
    unfold applyPaymentUpdate
    split <;> rfl

/-- A state with a single debt of 100, nothing paid. -/
def exDebtC2 : Debt :=
  { id := 1, transaction_id := none, customer_id := 3, amount := 100
    paid_amount := 0, status := "unpaid", created_at := 5 }

/-- Database holding only `exDebtC2`. -/
def exDB2 : DB :=
  { debts := [exDebtC2], debt_payments := [], transactions := []
    nextDebtId := 2, nextPaymentId := 1, nextTransactionId := 1, now := 9 }

/-- A payment body of amount 40. -/
def exBodyC2 : PaymentBody :=
  { payment_date := some "2024-02-01", amount := some 40
    payment_method := some "cash", notes := none }

/-- Witness for C2 at `exDB2` with a payment of 40 on a debt of 100. -/
theorem recordPayment_spec_witness :
    ∃ pay db', recordPayment exDB2 1 exBodyC2 = .created pay db' ∧
      db'.debt_payments = exDB2.debt_payments ++ [pay] ∧
      pay.amount = 40 ∧ pay.debt_id = 1 ∧
      ∃ debt', db'.debts.find? (fun d => d.id == 1) = some debt' ∧
        debt'.paid_amount = sumPaymentsFor exDB2.debt_payments 1 + 40 ∧
        debt'.status =
          (if sumPaymentsFor exDB2.debt_payments 1 + 40 ≥ exDebtC2.amount
           then "paid" else exDebtC2.status) :=
  recordPayment_spec exDB2 1 exBodyC2 exDebtC2 40 (by decide) rfl (by decide) (by decide)

/-! ### C3 — validation of the record-payment body -/

/-- The 400 guard `if (!payment_date || !amount)` fires exactly when the date
is falsy or the amount is absent or zero. -/
theorem paymentGuard_iff (pd : Option String) (am : Option Int) :
    (!(strTruthy pd) || !(intTruthy am)) = true ↔
      strTruthy pd = false ∨ am = none ∨ am = some 0 := by
  cases am with
  | none => simp [intTruthy]
  | some a =>
    by_cases h : a = 0 <;> simp [intTruthy, h]

/-- Counterexample to C3: on the existing debt 1 of `exDB2`, a request that
does supply a `payment_date` and the amount `0` is rejected with 400 — the
truthiness check conflates the number `0` with an absent field, so a zero
amount is NOT accepted and 400 does not occur only on absent fields. -/
theorem recordPayment_zero_amount_rejected :
    recordPayment exDB2 1
      { payment_date := some "2024-02-01", amount := some 0
        payment_method := none, notes := none } = .badRequest := by decide

/-- C3 amended: a negative amount is accepted and inserted as-is, but the
validation failure (400) occurs exactly when `payment_date` is falsy (absent
or empty) or `amount` is absent OR ZERO; 404 occurs exactly when the body
passes that check and the debt id does not exist. -/
theorem recordPayment_error_cases (db : DB) (debtId : Nat) (body : PaymentBody) :
    (recordPayment db debtId body = .badRequest ↔
      strTruthy body.payment_date = false ∨ body.amount = none ∨ body.amount = some 0) ∧
    (recordPayment db debtId body = .notFound ↔
      strTruthy body.payment_date = true ∧ intTruthy body.amount = true ∧
      db.debts.find? (fun d => d.id == debtId) = none) ∧
    (∀ a : Int, a < 0 → strTruthy body.payment_date = true → body.amount = some a →
      ∀ debt, db.debts.find? (fun d => d.id == debtId) = some debt →
      ∃ pay db', recordPayment db debtId body = .created pay db' ∧
        pay.amount = a ∧ pay.payment_date = body.payment_date.getD "" ∧
        db'.debt_payments = db.debt_payments ++ [pay]) := by
  refine ⟨⟨?_, ?_⟩, ⟨?_, ?_⟩, ?_⟩
  · intro h
    by_cases hg : (!(strTruthy body.payment_date) || !(intTruthy body.amount)) = true
    · exact (paymentGuard_iff _ _).mp hg
    · rw [recordPayment, if_neg hg] at h
      split at h <;> simp at h
  · intro hdisj
    have hg := (paymentGuard_iff body.payment_date body.amount).mpr hdisj
    rw [recordPayment, if_pos hg]
  · intro h
    by_cases hg : (!(strTruthy body.payment_date) || !(intTruthy body.amount)) = true
    · rw [recordPayment, if_pos hg] at h
      simp at h
    · rw [recordPayment, if_neg hg] at h
      simp only [Bool.or_eq_true, Bool.not_eq_true', not_or] at hg
      push_neg at hg
      obtain ⟨h1, h2⟩ := hg
      have h1' : strTruthy body.payment_date = true := by
        cases hsp : strTruthy body.payment_date
        · exact absurd hsp h1
        · rfl
      have h2' : intTruthy body.amount = true := by
        cases hsp : intTruthy body.amount
        · exact absurd hsp h2
        · rfl
      refine ⟨h1', h2', ?_⟩
      split at h
      · assumption
      · simp at h
  · intro ⟨h1, h2, h3⟩
    have hg : (!(strTruthy body.payment_date) || !(intTruthy body.amount)) = false := by
      simp [h1, h2]
    rw [recordPayment, if_neg (by simp [hg]), h3]
  · intro a ha hdate hamt debt hfind
    have htr : intTruthy body.amount = true := by
      simp only [hamt, intTruthy, bne_iff_ne, ne_eq, decide_eq_true_eq]
      omega
    set pay : DebtPayment :=
      { id := db.nextPaymentId
        debt_id := debtId
        payment_date := body.payment_date.getD ""
        amount := body.amount.getD 0
        payment_method := body.payment_method
        notes := body.notes } with hpay
    set db' : DB :=
      { db with
          debts := db.debts.map (fun d =>
            if d.id == debtId then
              applyPaymentUpdate (sumPaymentsFor (db.debt_payments ++ [pay]) debtId)
                debt.amount d
            else d)
          debt_payments := db.debt_payments ++ [pay]
          nextPaymentId := db.nextPaymentId + 1 } with hdb'
    refine ⟨pay, db', ?_, by simp [hpay, hamt], rfl, rfl⟩
    simp only [recordPayment, hdate, htr, Bool.not_true, Bool.or_self, Bool.false_eq_true,
      if_false, hfind]

/-- Witness for the amended C3: a payment of −5 on debt 1 of `exDB2` is
accepted and inserted as-is. -/
theorem recordPayment_error_cases_witness :
    ∃ pay db', recordPayment exDB2 1
        { payment_date := some "2024-03-01", amount := some (-5)
          payment_method := none, notes := none } = .created pay db' ∧
      pay.amount = -5 ∧
      pay.payment_date = (some "2024-03-01").getD "" ∧
      db'.debt_payments = exDB2.debt_payments ++ [pay] :=
  (recordPayment_error_cases exDB2 1
      { payment_date := some "2024-03-01", amount := some (-5)
        payment_method := none, notes := none }).2.2
    (-5) (by decide) (by decide) rfl exDebtC2 (by decide)

/-! ### C10 — stored paid_amount equals the payment sum after every write -/

/-- C10: after every successful record-payment, every debt row carrying the
paid id has `paid_amount` equal to the sum of ALL payment rows of that id in
the new state — the write recomputes the full sum, so any pre-existing
divergence of the stored `paid_amount` is erased. -/
theorem recordPayment_restores_paid_sum (db : DB) (debtId : Nat) (body : PaymentBody)
    (pay : DebtPayment) (db' : DB)
    (h : recordPayment db debtId body = .created pay db') :
    ∀ d' ∈ db'.debts, d'.id = debtId →
      d'.paid_amount = sumPaymentsFor db'.debt_payments debtId := by
  by_cases hg : (!(strTruthy body.payment_date) || !(intTruthy body.amount)) = true
  · rw [recordPayment, if_pos hg] at h
    simp at h
  · rw [recordPayment, if_neg hg] at h
    rcases hfind : db.debts.find? (fun d => d.id == debtId) with _ | debt
    · rw [hfind] at h
      simp at h
    · rw [hfind] at h
      simp only [RecordPaymentResult.created.injEq] at h
      obtain ⟨-, rfl⟩ := h
      intro d' hd' hid
      simp only [List.mem_map] at hd'
      obtain ⟨d, -, rfl⟩ := hd'
      by_cases hdi : d.id = debtId
      · simp only [hdi, beq_self_eq_true, if_true]
        unfold applyPaymentUpdate
        split <;> rfl
      · have hb : (d.id == debtId) = false := by simp [hdi]
        rw [hb] at hid
        simp only [Bool.false_eq_true, if_false] at hid
        exact absurd hid hdi

/-- The payment row created when `exBodyC2` is recorded on `exDB2`. -/
def exPayC10 : DebtPayment :=
  { id := 1, debt_id := 1, payment_date := "2024-02-01", amount := 40
    payment_method := some "cash", notes := none }

/-- The database state after `exBodyC2` is recorded on `exDB2`. -/
def exDBC10 : DB :=
  { debts := [{ exDebtC2 with paid_amount := 40 }], debt_payments := [exPayC10]
    transactions := [], nextDebtId := 2, nextPaymentId := 2, nextTransactionId := 1
    now := 9 }

/-- Witness for C10: after the payment of 40 recorded on `exDB2`, debt 1's
stored `paid_amount` equals the payment sum 40. -/
theorem recordPayment_restores_paid_sum_witness :
    ({ exDebtC2 with paid_amount := 40 } : Debt).paid_amount
      = sumPaymentsFor exDBC10.debt_payments 1 :=
  recordPayment_restores_paid_sum exDB2 1 exBodyC2 exPayC10 exDBC10 (by decide)
    { exDebtC2 with paid_amount := 40 } (by decide) (by decide)

/-! ### C4 — creating a transaction and the conditional debt row -/

/-- C4: with valid (truthy) inputs, creating a transaction computes
`total = Math.round(weight_kg * price_per_kg)`; when `payment_status` is
`'unpaid'` exactly one debt row is appended, with `amount` equal to the
total and status `'unpaid'`; when `payment_status` is absent the stored
status defaults to `'paid'` and no debt row is created. -/
theorem createTransaction_spec (db : DB) (userId : Nat) (body : TransactionBody)
    (w p : Rat)
    (hdate : strTruthy body.date = true) (hcust : natTruthy body.customer_id = true)
    (hw : body.weight_kg = some w) (hw0 : w ≠ 0)
    (hp : body.price_per_kg = some p) (hp0 : p ≠ 0) :
    ∃ tx db', createTransaction db userId body = .created tx db' ∧
      tx.total = jsRound (w * p) ∧
      (body.payment_status = some "unpaid" →
        ∃ d : Debt, db'.debts = db.debts ++ [d] ∧
          d.amount = tx.total ∧ d.status = "unpaid" ∧ d.transaction_id = some tx.id) ∧
      (body.payment_status = none →
        tx.payment_status = "paid" ∧ db'.debts = db.debts) := by
  have hwt : ratTruthy body.weight_kg = true := by simp [hw, ratTruthy, hw0]
  have hpt : ratTruthy body.price_per_kg = true := by simp [hp, ratTruthy, hp0]
  set tx : SaleTransaction :=
    { id := db.nextTransactionId
      date := body.date.getD ""
      pond_id := jsOrNullNat body.pond_id
      customer_id := body.customer_id.getD 0
      weight_kg := body.weight_kg.getD 0
      price_per_kg := body.price_per_kg.getD 0
      total := jsRound ((body.weight_kg.getD 0) * (body.price_per_kg.getD 0))
      payment_method := body.payment_method
      payment_status := jsOrStr body.payment_status "paid"
      notes := body.notes
      created_by := userId } with htx
  set db1 : DB :=
    { db with
        transactions := db.transactions ++ [tx]
        nextTransactionId := db.nextTransactionId + 1 } with hdb1
  set newDebt : Debt :=
    { id := db1.nextDebtId
      transaction_id := some tx.id
      customer_id := tx.customer_id
      amount := jsRound ((body.weight_kg.getD 0) * (body.price_per_kg.getD 0))
      paid_amount := 0
      status := "unpaid"
      created_at := db1.now } with hnd
  set db2 : DB :=
    (if body.payment_status == some "unpaid" then
      { db1 with debts := db1.debts ++ [newDebt], nextDebtId := db1.nextDebtId + 1 }
     else db1) with hdb2
  refine ⟨tx, db2, ?_, by simp [htx, hw, hp], ?_, ?_⟩
  · simp only [createTransaction, hdate, hcust, hwt, hpt, Bool.not_true, Bool.or_self,
      Bool.false_eq_true, if_false]
  · intro hun
    refine ⟨newDebt, ?_, rfl, rfl, rfl⟩
    rw [hdb2, if_pos (by simp [hun])]
  · intro hnone
    constructor
    · simp [htx, hnone, jsOrStr]
    · rw [hdb2, if_neg (by simp [hnone])]

/-- The sale body `weight_kg = 10`, `price_per_kg = 1500`, unpaid. -/
def exBodyC4 : TransactionBody :=
  { date := some "2024-01-01", pond_id := none, customer_id := some 3
    weight_kg := some 10, price_per_kg := some 1500, payment_method := none
    payment_status := some "unpaid", notes := none }

/-- Witness for C4 at `exDB2`: the sale of 10 kg at 1500 per kg yields
`total = round(10 * 1500) = 15000` and, being unpaid, a debt row. -/
theorem createTransaction_spec_witness :
    (∃ tx db', createTransaction exDB2 7 exBodyC4 = .created tx db' ∧
      tx.total = jsRound (10 * 1500) ∧
      (exBodyC4.payment_status = some "unpaid" →
        ∃ d : Debt, db'.debts = exDB2.debts ++ [d] ∧
          d.amount = tx.total ∧ d.status = "unpaid" ∧ d.transaction_id = some tx.id) ∧
      (exBodyC4.payment_status = none →
        tx.payment_status = "paid" ∧ db'.debts = exDB2.debts)) ∧
    jsRound ((10 : Rat) * 1500) = 15000 :=
  ⟨createTransaction_spec exDB2 7 exBodyC4 10 1500
      (by decide) (by decide) rfl (by decide) rfl (by decide),
    by norm_num [jsRound]⟩

/-! ### C5 — debt synchronization on transaction update -/

/-- C5: when the new `payment_status` is `'unpaid'` and a debt referencing
the transaction exists, every debt row referencing it has ONLY its `amount`
overwritten with the recomputed total (`paid_amount`, `status` and all other
columns untouched) and other debts are untouched; when the new
`payment_status` is not `'unpaid'`, every debt row referencing the
transaction has ONLY its `status` set to `'paid'` (`paid_amount` and
`amount` untouched) and other debts are untouched. -/
theorem updateTransaction_debt_sync (db : DB) (txId : Nat) (body : TransactionBody) :
    (body.payment_status = some "unpaid" →
      (db.debts.find? (fun d => d.transaction_id == some txId)).isSome = true →
      List.Forall₂ (fun d' d =>
          if d.transaction_id = some txId then
            d' = { d with
              amount := jsRound ((body.weight_kg.getD 0) * (body.price_per_kg.getD 0)) }
          else d' = d)
        (updateTransaction db txId body).db.debts db.debts) ∧
    (body.payment_status ≠ some "unpaid" →
      List.Forall₂ (fun d' d =>
          if d.transaction_id = some txId then d' = { d with status := "paid" }
          else d' = d)
        (updateTransaction db txId body).db.debts db.debts) := by
  constructor
  · intro hun hex
    obtain ⟨d0, hd0⟩ := Option.isSome_iff_exists.mp hex
    have hcond : (body.payment_status == some "unpaid") = true := by simp [hun]
    simp only [updateTransaction, hcond, if_true, hd0]
    rw [List.forall₂_map_left_iff]
    rw [List.forall₂_same]
    intro d hd
    by_cases hdt : d.transaction_id = some txId
    · simp [hdt]
    · simp [hdt]
  · intro hne
    have hcond : (body.payment_status == some "unpaid") = false := by
      simp only [beq_eq_false_iff_ne, ne_eq]
      exact hne
    simp only [updateTransaction, hcond, Bool.false_eq_true, if_false]
    rw [List.forall₂_map_left_iff]
    rw [List.forall₂_same]
    intro d hd
    by_cases hdt : d.transaction_id = some txId
    · simp [hdt]
    · simp [hdt]

/-- A partially-paid debt referencing transaction 1, next to an unrelated
debt, for the C5 witness. -/
def exDB5 : DB :=
  { debts := [{ id := 1, transaction_id := some 1, customer_id := 3, amount := 15000
                paid_amount := 500, status := "unpaid", created_at := 2 },
              { id := 2, transaction_id := some 9, customer_id := 4, amount := 70
                paid_amount := 0, status := "unpaid", created_at := 3 }]
    debt_payments := [{ id := 1, debt_id := 1, payment_date := "2024-02-02", amount := 500
                        payment_method := none, notes := none }]
    transactions := [{ id := 1, date := "2024-01-01", pond_id := none, customer_id := 3
                       weight_kg := 10, price_per_kg := 1500, total := 15000
                       payment_method := none, payment_status := "unpaid", notes := none
                       created_by := 7 }]
    nextDebtId := 3, nextPaymentId := 2, nextTransactionId := 2, now := 9 }

/-- The update body used by the C5 witness: still unpaid, new weight 12. -/
def exBodyC5 : TransactionBody :=
  { date := some "2024-01-01", pond_id := none, customer_id := some 3
    weight_kg := some 12, price_per_kg := some 1500, payment_method := none
    payment_status := some "unpaid", notes := none }

/-- Witness for C5: updating transaction 1 of `exDB5` while unpaid rewrites
only the referencing debt's `amount`. -/
theorem updateTransaction_debt_sync_witness :
    List.Forall₂ (fun d' d =>
        if d.transaction_id = some 1 then
          d' = { d with
            amount := jsRound ((exBodyC5.weight_kg.getD 0) * (exBodyC5.price_per_kg.getD 0)) }
        else d' = d)
      (updateTransaction exDB5 1 exBodyC5).db.debts exDB5.debts :=
  (updateTransaction_debt_sync exDB5 1 exBodyC5).1 rfl (by decide)

/-! ### C6 — get single receivable keeps the stored status -/

/-- `reduce((sum, p) => sum + p.amount, 0)` equals the sum of the mapped
amounts. -/
theorem foldl_amount_eq_sum (l : List DebtPayment) :
    l.foldl (fun s p => s + p.amount) 0 = (l.map (fun p => p.amount)).sum := by
  have h : ∀ (s : Int), l.foldl (fun s p => s + p.amount) s
      = s + (l.map (fun p => p.amount)).sum := by
    induction l with
    | nil => intro s; simp
    | cons q l ih =>
      intro s
      simp only [List.foldl_cons, List.map_cons, List.sum_cons, ih]
      ring
  simpa using h 0

/-- C6: fetching a single receivable is 404 exactly when no debt has the id;
on success the response's payments are the debt's payment rows ordered
newest first, `paid_amount` is their sum, `remaining_amount` is
`amount - paid_amount`, and `status` is the STORED column (not the
recomputed value). -/
theorem getDebt_spec (db : DB) (i : Nat) :
    (getDebt db i = .notFound ↔ db.debts.find? (fun d => d.id == i) = none) ∧
    (∀ debt, db.debts.find? (fun d => d.id == i) = some debt →
      ∃ resp, getDebt db i = .ok resp ∧
        resp.status = debt.status ∧
        resp.paid_amount = sumPaymentsFor db.debt_payments i ∧
        resp.remaining_amount = debt.amount - resp.paid_amount ∧
        List.Perm resp.payments (db.debt_payments.filter (fun p => p.debt_id == i)) ∧
        List.Sorted paymentDateDesc resp.payments) := by
  constructor
  · constructor
    · intro h
      rcases hf : db.debts.find? (fun d => d.id == i) with _ | debt
      · exact hf
      · rw [getDebt, hf] at h
        simp at h
    · intro hf
      rw [getDebt, hf]
  · intro debt hf
    have hperm : List.Perm
        ((db.debt_payments.filter (fun p => p.debt_id == i)).insertionSort paymentDateDesc)
        (db.debt_payments.filter (fun p => p.debt_id == i)) :=
      List.perm_insertionSort paymentDateDesc _
    refine ⟨_, by rw [getDebt, hf], rfl, ?_, rfl, hperm, ?_⟩
    · show ((db.debt_payments.filter (fun p => p.debt_id == i)).insertionSort
          paymentDateDesc).foldl (fun s p => s + p.amount) 0
        = sumPaymentsFor db.debt_payments i
      rw [foldl_amount_eq_sum, sumPaymentsFor]
      exact List.Perm.sum_eq (List.Perm.map _ hperm)
    · exact List.sorted_insertionSort paymentDateDesc _

/-- Witness for C6 at `exDB1`, debt 1: the stored status `"unpaid"` is
returned even though the payments settle the debt. -/
theorem getDebt_spec_witness :
    ∃ resp, getDebt exDB1 1 = .ok resp ∧
      resp.status = exDebt1.status ∧
      resp.paid_amount = sumPaymentsFor exDB1.debt_payments 1 ∧
      resp.remaining_amount = exDebt1.amount - resp.paid_amount ∧
      List.Perm resp.payments (exDB1.debt_payments.filter (fun p => p.debt_id == 1)) ∧
      List.Sorted paymentDateDesc resp.payments :=
  (getDebt_spec exDB1 1).2 exDebt1 (by decide)

/-! ### C7 — deleting a transaction: authorization, debts removed, payments
orphaned -/

/-- C7: the delete handler refuses (403, no state change) every caller whose
role is neither `'admin'` nor `'owner'`; for admin/owner it removes the
transaction row and every debt row referencing the transaction while
leaving every payment row in place. -/
theorem deleteTransaction_spec (db : DB) (user : User) (txId : Nat) :
    (user.role ≠ "admin" ∧ user.role ≠ "owner" →
      deleteTransaction db user txId = .forbidden db) ∧
    (user.role = "admin" ∨ user.role = "owner" →
      ∃ db', deleteTransaction db user txId = .ok db' ∧
        (∀ t : SaleTransaction, t ∈ db'.transactions ↔ t ∈ db.transactions ∧ t.id ≠ txId) ∧
        (∀ d : Debt, d ∈ db'.debts ↔ d ∈ db.debts ∧ d.transaction_id ≠ some txId) ∧
        db'.debt_payments = db.debt_payments) := by
  constructor
  · intro hrole
    rw [deleteTransaction, if_pos hrole]
  · intro hrole
    have hneg : ¬(user.role ≠ "admin" ∧ user.role ≠ "owner") := by
      rcases hrole with h | h <;> simp [h]
    refine ⟨{ db with
        transactions := db.transactions.filter (fun t => !(t.id == txId))
        debts := db.debts.filter (fun d => !(d.transaction_id == some txId)) },
      by rw [deleteTransaction, if_neg hneg], ?_, ?_, rfl⟩
    · intro t
      simp [List.mem_filter]
    · intro d
      simp [List.mem_filter]

/-- Witness for C7: an admin deleting transaction 1 of `exDB5`. -/
theorem deleteTransaction_spec_witness :
    ∃ db', deleteTransaction exDB5 { id := 7, role := "admin" } 1 = .ok db' ∧
      (∀ t : SaleTransaction, t ∈ db'.transactions ↔ t ∈ exDB5.transactions ∧ t.id ≠ 1) ∧
      (∀ d : Debt, d ∈ db'.debts ↔ d ∈ exDB5.debts ∧ d.transaction_id ≠ some 1) ∧
      db'.debt_payments = exDB5.debt_payments :=
  (deleteTransaction_spec exDB5 { id := 7, role := "admin" } 1).2 (Or.inl rfl)

/-! ### C8 — listing payments of a nonexistent debt -/

/-- A reachable state with an orphaned payment: transaction 1 and its debt 1
with a recorded payment of 500 (as produced by the create-transaction and
record-payment handlers). -/
def exC8db1 : DB :=
  { debts := [{ id := 1, transaction_id := some 1, customer_id := 3, amount := 15000
                paid_amount := 500, status := "unpaid", created_at := 0 }]
    debt_payments := [{ id := 1, debt_id := 1, payment_date := "2024-02-02", amount := 500
                        payment_method := none, notes := none }]
    transactions := [{ id := 1, date := "2024-01-01", pond_id := none, customer_id := 3
                       weight_kg := 10, price_per_kg := 1500, total := 15000
                       payment_method := none, payment_status := "unpaid", notes := none
                       created_by := 7 }]
    nextDebtId := 2, nextPaymentId := 2, nextTransactionId := 2, now := 0 }

/-- The state after an admin deletes transaction 1 of `exC8db1`: the debt is
gone, the payment row remains. -/
def exC8db2 : DB :=
  { debts := [], debt_payments := exC8db1.debt_payments, transactions := []
    nextDebtId := 2, nextPaymentId := 2, nextTransactionId := 2, now := 0 }

/-- Counterexample to C8: after deleting transaction 1 (which removes debt 1
but orphans its payment row), debt id 1 matches no debt, yet listing its
payments returns the orphaned row — a nonempty sequence — so "for every id
with no matching debt the operation returns an empty sequence" fails. -/
theorem listDebtPayments_orphan_nonempty :
    deleteTransaction exC8db1 { id := 7, role := "admin" } 1 = .ok exC8db2 ∧
    exC8db2.debts.find? (fun d => d.id == 1) = none ∧
    listDebtPayments exC8db2 1 =
      [{ id := 1, debt_id := 1, payment_date := "2024-02-02", amount := 500
         payment_method := none, notes := none }] := by
  refine ⟨?_, rfl, rfl⟩
  rw [deleteTransaction, if_neg (by simp)]
  rfl

/-- C8 amended: listing payments for a debt id returns all payment rows
carrying that id, newest first, with no existence check on the debt — so it
returns the empty sequence (rather than an error) exactly for ids with no
matching PAYMENT rows; an id whose debt was deleted but that still has
orphaned payment rows yields those rows. -/
theorem listDebtPayments_spec (db : DB) (i : Nat) :
    List.Perm (listDebtPayments db i) (db.debt_payments.filter (fun p => p.debt_id == i)) ∧
    List.Sorted paymentDateDesc (listDebtPayments db i) ∧
    ((∀ p ∈ db.debt_payments, p.debt_id ≠ i) → listDebtPayments db i = []) := by
  refine ⟨List.perm_insertionSort paymentDateDesc _,
    List.sorted_insertionSort paymentDateDesc _, ?_⟩
  intro hnone
  rw [listDebtPayments]
  have hfilt : db.debt_payments.filter (fun p => p.debt_id == i) = [] := by
    rw [List.filter_eq_nil_iff]
    intro p hp
    simp [hnone p hp]
  rw [hfilt]
  rfl

/-- Witness for the amended C8: in `exDB2` (no payment rows at all), listing
payments for the unknown id 5 returns the empty sequence. -/
theorem listDebtPayments_spec_witness :
    listDebtPayments exDB2 5 = [] :=
  (listDebtPayments_spec exDB2 5).2.2 (by decide)

/-! ### C9 — status filter uses the stored column, response recomputes it -/

/-- C9: in `exDB1`, debt 1 is stored `'unpaid'` but fully paid, and debt 2 is
stored `'paid'` with no payments; filtering the list endpoint by
`status='unpaid'` returns exactly one row whose reported status is
`'paid'`, and filtering by `status='paid'` returns exactly one row whose
reported status is `'unpaid'`. -/
theorem listDebts_filter_vs_computed_status :
    ((listDebts exDB1 (some "unpaid") none).map (fun r => r.status)) = ["paid"] ∧
    ((listDebts exDB1 (some "paid") none).map (fun r => r.status)) = ["unpaid"] := by
  decide
